import Mathlib

/-!
Shallow embedding of the Vulkan tutorial driver program (src/main.rs) and
proofs about its device/format/present-mode selection, handle lifecycle,
error handling, event loop, and per-frame render cycle.

Pure selection logic is transliterated function by function.  Stateful API
call sequences (App::new / App::drop / App::draw_frame / the winit event
loop) are embedded as explicit traces: lists of handles in creation or
destruction order, lists of GPU actions issued per frame, and a per-event
transition function on the control flow.  Results of external queries
(queue-family properties, surface support, surface formats, present modes,
extension lists) are modelled as fields of the `PhysicalDevice` record, so
that the selection functions can be run and reasoned about directly.
-/

namespace vk

inductive Format where
  | B8G8R8A8_SRGB
  | B8G8R8A8_UNORM
  | R8G8B8A8_SRGB
deriving DecidableEq

inductive ColorSpaceKHR where
  | SRGB_NONLINEAR
  | EXTENDED_SRGB_LINEAR
deriving DecidableEq

/-- vk::SurfaceFormatKHR: a pixel format together with a color space. -/
structure SurfaceFormatKHR where
  format : Format
  color_space : ColorSpaceKHR
deriving DecidableEq

inductive PresentModeKHR where
  | IMMEDIATE
  | MAILBOX
  | FIFO
  | FIFO_RELAXED
deriving DecidableEq

/-- Bit values of ash's vk::DebugUtilsMessageSeverityFlagsEXT. -/
def DebugUtilsMessageSeverityFlagsEXT.VERBOSE : Nat := 1

def DebugUtilsMessageSeverityFlagsEXT.INFO : Nat := 16

def DebugUtilsMessageSeverityFlagsEXT.WARNING : Nat := 256

def DebugUtilsMessageSeverityFlagsEXT.ERROR : Nat := 4096

/-- Bit values of ash's vk::DebugUtilsMessageTypeFlagsEXT. -/
def DebugUtilsMessageTypeFlagsEXT.GENERAL : Nat := 1

def DebugUtilsMessageTypeFlagsEXT.VALIDATION : Nat := 2

def DebugUtilsMessageTypeFlagsEXT.PERFORMANCE : Nat := 4

end vk

/-- One entry of get_physical_device_queue_family_properties, paired with the
result of get_physical_device_surface_support for the same queue index
(`present_support`), which in main.rs is queried per index inside
find_queue_family. -/
structure QueueFamilyProperties where
  queue_count : Nat
  graphics_support : Bool
  present_support : Bool
deriving DecidableEq

/-- A physical device together with the results of the enumeration calls
main.rs performs against it: enumerate_device_extension_properties
(`extensions`), get_physical_device_surface_formats (`formats`) and
get_physical_device_surface_present_modes (`present_modes`). -/
structure PhysicalDevice where
  queue_families : List QueueFamilyProperties
  extensions : List String
  formats : List vk.SurfaceFormatKHR
  present_modes : List vk.PresentModeKHR
deriving DecidableEq

/-- struct QueueFamilyIndices of main.rs. -/
structure QueueFamilyIndices where
  graphics_family : Option Nat
  present_family : Option Nat
deriving DecidableEq

/-- QueueFamilyIndices::is_complete of main.rs. -/
def QueueFamilyIndices.is_complete (i : QueueFamilyIndices) : Bool :=
  i.graphics_family.isSome && i.present_family.isSome

/-- The loop body of find_queue_family of main.rs: walk the queue families
with a running index, record the last graphics-capable and the last
present-capable index seen among families with a positive queue count, and
stop early once both are recorded. -/
def find_queue_family_loop :
    List QueueFamilyProperties → Nat → QueueFamilyIndices → QueueFamilyIndices
  | [], _, indices => indices
  | queue_family :: rest, index, indices =>
    let indices :=
      if queue_family.queue_count > 0 then
        let indices :=
          if queue_family.graphics_support then
            { indices with graphics_family := some index }
          else indices
        if queue_family.present_support then
          { indices with present_family := some index }
        else indices
      else indices
    if indices.is_complete then indices
    else find_queue_family_loop rest (index + 1) indices

/-- find_queue_family of main.rs. -/
def find_queue_family (p_device : PhysicalDevice) : QueueFamilyIndices :=
  find_queue_family_loop p_device.queue_families 0 ⟨none, none⟩

/-- const DEVICE_EXTENSIONS of main.rs. -/
def DEVICE_EXTENSIONS : List String := ["VK_KHR_swapchain"]

/-- check_physic_device_extension_support of main.rs: the required-extension
set minus the available extensions is empty, i.e. every required extension
occurs among the device's extensions. -/
def check_physic_device_extension_support (p_device : PhysicalDevice) : Bool :=
  DEVICE_EXTENSIONS.all fun ext => p_device.extensions.contains ext

/-- is_device_suitable of main.rs. -/
def is_device_suitable (p_device : PhysicalDevice) : Bool :=
  let queue_family_indices := find_queue_family p_device
  let extensions_support := check_physic_device_extension_support p_device
  let swap_chain_adequate :=
    if extensions_support then
      !p_device.formats.isEmpty && !p_device.present_modes.isEmpty
    else false
  queue_family_indices.is_complete && extensions_support && swap_chain_adequate

/-- The selection loop of pick_physic_device of main.rs: each suitable device
overwrites the previous candidate, with no early exit. -/
def pick_physic_device_loop :
    List PhysicalDevice → Option PhysicalDevice → Option PhysicalDevice
  | [], suitable_device => suitable_device
  | device :: rest, suitable_device =>
    pick_physic_device_loop rest
      (if is_device_suitable device then some device else suitable_device)

/-- pick_physic_device of main.rs; the two panic sites are modelled as
Except.error carrying the panic message. -/
def pick_physic_device (physical_devices : List PhysicalDevice) :
    Except String PhysicalDevice :=
  if physical_devices.length = 0 then
    Except.error "Failed to find GPUs with vulkan support."
  else
    match pick_physic_device_loop physical_devices none with
    | some device => Except.ok device
    | none => Except.error "Failed to find a suitable GPU!"

/-- choose_swap_present_mode of main.rs: return the first MAILBOX entry of the
list, and FIFO when no entry is MAILBOX. -/
def choose_swap_present_mode : List vk.PresentModeKHR → vk.PresentModeKHR
  | [] => vk.PresentModeKHR.FIFO
  | present_mode :: rest =>
    if present_mode = vk.PresentModeKHR.MAILBOX then present_mode
    else choose_swap_present_mode rest

/-- The loop condition of choose_swap_surface_format of main.rs, named so the
loop and the specification can share it. -/
def is_preferred_surface_format (format : vk.SurfaceFormatKHR) : Bool :=
  format.format == vk.Format.B8G8R8A8_SRGB &&
    format.color_space == vk.ColorSpaceKHR.SRGB_NONLINEAR

/-- The search loop of choose_swap_surface_format of main.rs. -/
def choose_swap_surface_format_loop :
    List vk.SurfaceFormatKHR → Option vk.SurfaceFormatKHR
  | [] => none
  | format :: rest =>
    if is_preferred_surface_format format then some format
    else choose_swap_surface_format_loop rest

/-- choose_swap_surface_format of main.rs; the fallback
avaliable_formats.first().unwrap() is modelled by head?, whose none case
corresponds to the unwrap panic on an empty list. -/
def choose_swap_surface_format (avaliable_formats : List vk.SurfaceFormatKHR) :
    Option vk.SurfaceFormatKHR :=
  match choose_swap_surface_format_loop avaliable_formats with
  | some format => some format
  | none => avaliable_formats.head?

/-- The image-count computation of create_swap_chain of main.rs (lines
498-502): min_image_count + 1 as u32 arithmetic, clamped down to
max_image_count when that bound is non-zero and exceeded. -/
def create_swap_chain_image_count (min_image_count max_image_count : Nat) : Nat :=
  let image_count := (min_image_count + 1) % 4294967296
  if max_image_count > 0 ∧ image_count > max_image_count then max_image_count
  else image_count

/-- The native-API handles owned by struct App.  Shader modules are created
and destroyed inside create_graphics_pipeline before App::new returns, and
command buffers are freed implicitly with their pool, so neither appears in
the drop sequence; queues and the physical device have no destroy call in
the Vulkan API. -/
inductive Handle where
  | vk_instance
  | debug_utils_messenger
  | surface_khr
  | device
  | swapchain_khr
  | image_view (index : Nat)
  | render_pass
  | pipeline_layout
  | graphic_pipeline
  | framebuffer (index : Nat)
  | command_pool
  | image_avaliable_semaphore
  | render_finished_semaphore
deriving DecidableEq

/-- The order in which App::new (main.rs lines 1127-1225) creates the handles
that survive until App::drop, for a swapchain with n images: instance, debug
messenger, surface, logical device, swapchain, the n image views, render
pass, pipeline layout, pipeline, the n framebuffers, command pool, then the
image-available and render-finished semaphores. -/
def creation_order (n : Nat) : List Handle :=
  [Handle.vk_instance, Handle.debug_utils_messenger, Handle.surface_khr,
   Handle.device, Handle.swapchain_khr]
  ++ (List.range n).map Handle.image_view
  ++ [Handle.render_pass, Handle.pipeline_layout, Handle.graphic_pipeline]
  ++ (List.range n).map Handle.framebuffer
  ++ [Handle.command_pool, Handle.image_avaliable_semaphore,
      Handle.render_finished_semaphore]

/-- The order in which App::drop (main.rs lines 1362-1399) destroys the
handles: both semaphores (image-available first), command pool, the
framebuffers in forward iteration order, pipeline, pipeline layout, render
pass, the image views in forward iteration order, swapchain, device,
surface, debug messenger, instance. -/
def destruction_order (n : Nat) : List Handle :=
  [Handle.image_avaliable_semaphore, Handle.render_finished_semaphore,
   Handle.command_pool]
  ++ (List.range n).map Handle.framebuffer
  ++ [Handle.graphic_pipeline, Handle.pipeline_layout, Handle.render_pass]
  ++ (List.range n).map Handle.image_view
  ++ [Handle.swapchain_khr, Handle.device, Handle.surface_khr,
      Handle.debug_utils_messenger, Handle.vk_instance]

/-- The creation order of `creation_order`, grouped into the resource groups
of App::new: every group is a singleton except the image views, the
framebuffers, and the semaphore pair created by create_semaphore. -/
def creation_groups (n : Nat) : List (List Handle) :=
  [[Handle.vk_instance], [Handle.debug_utils_messenger], [Handle.surface_khr],
   [Handle.device], [Handle.swapchain_khr],
   (List.range n).map Handle.image_view,
   [Handle.render_pass], [Handle.pipeline_layout], [Handle.graphic_pipeline],
   (List.range n).map Handle.framebuffer,
   [Handle.command_pool],
   [Handle.image_avaliable_semaphore, Handle.render_finished_semaphore]]

/-- The fallible operations of main.rs in the scope of the error-handling
specification: the validation-layer check, device enumeration and selection,
resource creation, queue submission and presentation. -/
inductive FallibleOp where
  | enumerate_instance_layer_properties
  | missing_validation_layer
  | create_instance
  | create_debug_utils_messenger
  | create_surface
  | enumerate_physical_devices
  | no_vulkan_gpu
  | no_suitable_gpu
  | get_physical_device_surface_support
  | enumerate_device_extension_properties
  | get_physical_device_surface_capabilities
  | get_physical_device_surface_formats
  | get_physical_device_surface_present_modes
  | create_device
  | create_swapchain
  | get_swapchain_images
  | create_image_view
  | create_render_pass
  | create_pipeline_layout
  | create_graphics_pipelines
  | open_shader_file
  | create_shader_module
  | create_framebuffer
  | create_command_pool
  | allocate_command_buffers
  | begin_command_buffer
  | end_command_buffer
  | create_semaphore
  | acquire_next_image
  | queue_submit
  | queue_present
  | device_wait_idle
deriving DecidableEq

/-- What a call site does when its fallible operation fails. -/
inductive FailureBehavior where
  | abortWith (msg : String)
  | retryOp
  | recoverOp
deriving DecidableEq

/-- The failure handling of each call site of main.rs, transliterated from
its expect / panic message.  The shader-file message prefixes the formatted
path. -/
def on_failure : FallibleOp → FailureBehavior
  | FallibleOp.enumerate_instance_layer_properties =>
    FailureBehavior.abortWith "Failed to enumerate Instance Layers Properties"
  | FallibleOp.missing_validation_layer =>
    FailureBehavior.abortWith "validation layers requested, but not avaliable!"
  | FallibleOp.create_instance =>
    FailureBehavior.abortWith "Failed to create instance"
  | FallibleOp.create_debug_utils_messenger =>
    FailureBehavior.abortWith "Failed to set up debug messenger!"
  | FallibleOp.create_surface =>
    FailureBehavior.abortWith "Failed to create surface."
  | FallibleOp.enumerate_physical_devices =>
    FailureBehavior.abortWith "Failed to enumerate Physical Devices!"
  | FallibleOp.no_vulkan_gpu =>
    FailureBehavior.abortWith "Failed to find GPUs with vulkan support."
  | FallibleOp.no_suitable_gpu =>
    FailureBehavior.abortWith "Failed to find a suitable GPU!"
  | FallibleOp.get_physical_device_surface_support =>
    FailureBehavior.abortWith "Failed to get physic device surface support"
  | FallibleOp.enumerate_device_extension_properties =>
    FailureBehavior.abortWith "Failed to get physical device extension properties"
  | FallibleOp.get_physical_device_surface_capabilities =>
    FailureBehavior.abortWith "Failed to query for surface capabilities."
  | FallibleOp.get_physical_device_surface_formats =>
    FailureBehavior.abortWith "Failed to query for surface formats."
  | FallibleOp.get_physical_device_surface_present_modes =>
    FailureBehavior.abortWith "Failed to query for surface present modes."
  | FallibleOp.create_device =>
    FailureBehavior.abortWith "Failed to create logical device!"
  | FallibleOp.create_swapchain =>
    FailureBehavior.abortWith "Failed to create swapchain."
  | FallibleOp.get_swapchain_images =>
    FailureBehavior.abortWith "Failed to get swapchain images."
  | FallibleOp.create_image_view =>
    FailureBehavior.abortWith "Failed to create image view."
  | FallibleOp.create_render_pass =>
    FailureBehavior.abortWith "Failed to create render pass."
  | FallibleOp.create_pipeline_layout =>
    FailureBehavior.abortWith "Failed create pipeline layout."
  | FallibleOp.create_graphics_pipelines =>
    FailureBehavior.abortWith "Failed to create graphics pipeline"
  | FallibleOp.open_shader_file =>
    FailureBehavior.abortWith "Failed to open file at "
  | FallibleOp.create_shader_module =>
    FailureBehavior.abortWith "Failed to create shader modules."
  | FallibleOp.create_framebuffer =>
    FailureBehavior.abortWith "Failed to create framebuffer."
  | FallibleOp.create_command_pool =>
    FailureBehavior.abortWith "Failed to create command pool."
  | FallibleOp.allocate_command_buffers =>
    FailureBehavior.abortWith "Failed to allocate command buffers."
  | FallibleOp.begin_command_buffer =>
    FailureBehavior.abortWith "Failed to begin command buffer."
  | FallibleOp.end_command_buffer =>
    FailureBehavior.abortWith "Failed to end command buffer."
  | FallibleOp.create_semaphore =>
    FailureBehavior.abortWith "Failed to create semaphore."
  | FallibleOp.acquire_next_image =>
    FailureBehavior.abortWith "Failed to acquire next image."
  | FallibleOp.queue_submit =>
    FailureBehavior.abortWith "Failed to queue submit."
  | FallibleOp.queue_present =>
    FailureBehavior.abortWith "Failed to queue present."
  | FallibleOp.device_wait_idle =>
    FailureBehavior.abortWith "Failed to wait device idle"

/-- The two binary semaphores created by create_semaphore of main.rs. -/
inductive Semaphore where
  | image_avaliable_semaphore
  | render_finished_semaphore
deriving DecidableEq

/-- vk::SubmitInfo as filled in by App::draw_frame; command buffers are
identified by their recorded contents (here an opaque Nat). -/
structure SubmitInfo where
  wait_semaphores : List Semaphore
  command_buffers : List Nat
  signal_semaphores : List Semaphore
deriving DecidableEq

/-- vk::PresentInfoKHR as filled in by App::draw_frame. -/
structure PresentInfoKHR where
  wait_semaphores : List Semaphore
  swapchain_count : Nat
  image_indices : List Nat
deriving DecidableEq

/-- The externally visible GPU-ordering actions App::draw_frame performs;
`fence` is none when the call passes vk::Fence::null(). -/
inductive GpuAction where
  | acquire_next_image (timeout : Nat) (signal_semaphore : Semaphore)
      (fence : Option Unit)
  | queue_submit (info : SubmitInfo) (fence : Option Unit)
  | queue_present (info : PresentInfoKHR)
deriving DecidableEq

def GpuAction.is_submit : GpuAction → Bool
  | GpuAction.queue_submit _ _ => true
  | _ => false

def GpuAction.fence_of : GpuAction → Option Unit
  | GpuAction.acquire_next_image _ _ fence => fence
  | GpuAction.queue_submit _ fence => fence
  | GpuAction.queue_present _ => none

/-- App::draw_frame of main.rs (lines 1308-1359) as the trace of GPU actions
of one invocation.  `image_idx` is the index returned by acquire_next_image
(chosen by the driver); indexing self.command_buffers with it panics when
out of range, modelled by the error case. -/
def draw_frame (command_buffers : List Nat) (image_idx : Nat) :
    Except String (List GpuAction) :=
  if h : image_idx < command_buffers.length then
    let submit_info : SubmitInfo :=
      { wait_semaphores := [Semaphore.image_avaliable_semaphore]
        command_buffers := [command_buffers[image_idx]]
        signal_semaphores := [Semaphore.render_finished_semaphore] }
    let present_info : PresentInfoKHR :=
      { wait_semaphores := [Semaphore.render_finished_semaphore]
        swapchain_count := 1
        image_indices := [image_idx] }
    Except.ok
      [GpuAction.acquire_next_image (2 ^ 64 - 1)
         Semaphore.image_avaliable_semaphore none,
       GpuAction.queue_submit submit_info none,
       GpuAction.queue_present present_info]
  else Except.error "index out of bounds"

/-- The vertex-input state create_graphics_pipeline of main.rs fills in
(lines 726-734): zero binding and zero attribute descriptions. -/
structure PipelineVertexInputStateCreateInfo where
  vertex_binding_description_count : Nat
  vertex_attribute_description_count : Nat
deriving DecidableEq

def vertex_input_ci : PipelineVertexInputStateCreateInfo :=
  { vertex_binding_description_count := 0
    vertex_attribute_description_count := 0 }

/-- The commands create_command_buffers of main.rs records into one command
buffer. -/
inductive Command where
  | cmd_begin_render_pass (framebuffer : Nat)
  | cmd_bind_pipeline
  | cmd_set_viewport
  | cmd_draw (vertex_count : Nat) (instance_count : Nat) (first_vertex : Nat)
      (first_instance : Nat)
  | cmd_end_render_pass
deriving DecidableEq

def Command.is_draw : Command → Bool
  | Command.cmd_draw _ _ _ _ => true
  | _ => false

/-- The recording loop body of create_command_buffers of main.rs (lines
1043-1058) for the buffer paired with framebuffer `framebuffer_idx`. -/
def record_commands (framebuffer_idx : Nat) : List Command :=
  [Command.cmd_begin_render_pass framebuffer_idx,
   Command.cmd_bind_pipeline,
   Command.cmd_set_viewport,
   Command.cmd_draw 3 1 0 0,
   Command.cmd_end_render_pass]

/-- create_command_buffers of main.rs: one command buffer per swapchain
image, each recorded by the same loop body. -/
def create_command_buffers (swapchain_image_count : Nat) : List (List Command) :=
  (List.range swapchain_image_count).map record_commands

inductive ElementState where
  | Pressed
  | Released
deriving DecidableEq

inductive VirtualKeyCode where
  | Escape
  | A
  | Space
deriving DecidableEq

/-- winit's KeyboardInput as destructured by App::main_loop. -/
structure KeyboardInput where
  virtual_keycode : Option VirtualKeyCode
  state : ElementState
deriving DecidableEq

/-- The winit window events App::main_loop distinguishes, with two
representatives (Resized, Moved) of the variants its wildcard arm drops. -/
inductive WindowEvent where
  | CloseRequested
  | KeyboardInput (input : KeyboardInput)
  | Resized
  | Moved
deriving DecidableEq

/-- The winit events App::main_loop distinguishes, with two representatives
(NewEvents, LoopDestroyed) of the variants its wildcard arm drops. -/
inductive Event where
  | WindowEvent (event : WindowEvent)
  | MainEventsCleared
  | RedrawRequested (window_id : Nat)
  | NewEvents
  | LoopDestroyed
deriving DecidableEq

inductive ControlFlow where
  | Poll
  | Wait
  | Exit
deriving DecidableEq

/-- The observable effect of one pass through the closure of App::main_loop:
the control flow it leaves behind, whether it called request_redraw, and
whether it called draw_frame. -/
structure LoopEffect where
  control_flow : ControlFlow
  requested_redraw : Bool
  drew_frame : Bool
deriving DecidableEq

/-- The event-handling closure of App::main_loop of main.rs (lines
1279-1306). -/
def main_loop_handle_event (event : Event) (control_flow : ControlFlow) :
    LoopEffect :=
  match event with
  | Event.WindowEvent window_event =>
    match window_event with
    | WindowEvent.CloseRequested =>
      { control_flow := ControlFlow.Exit, requested_redraw := false,
        drew_frame := false }
    | WindowEvent.KeyboardInput input =>
      match input.virtual_keycode, input.state with
      | some VirtualKeyCode.Escape, ElementState.Pressed =>
        { control_flow := ControlFlow.Exit, requested_redraw := false,
          drew_frame := false }
      | _, _ =>
        { control_flow := control_flow, requested_redraw := false,
          drew_frame := false }
    | _ =>
      { control_flow := control_flow, requested_redraw := false,
        drew_frame := false }
  | Event.MainEventsCleared =>
    { control_flow := control_flow, requested_redraw := true,
      drew_frame := false }
  | Event.RedrawRequested _ =>
    { control_flow := control_flow, requested_redraw := false,
      drew_frame := true }
  | _ =>
    { control_flow := control_flow, requested_redraw := false,
      drew_frame := false }

/-- match arm producing the severity tag in vulkan_debug_utils_debug. -/
def message_severity_str (message_severity : Nat) : String :=
  if message_severity = vk.DebugUtilsMessageSeverityFlagsEXT.VERBOSE then "[Verbose]"
  else if message_severity = vk.DebugUtilsMessageSeverityFlagsEXT.WARNING then "[Warning]"
  else if message_severity = vk.DebugUtilsMessageSeverityFlagsEXT.ERROR then "[Error]"
  else if message_severity = vk.DebugUtilsMessageSeverityFlagsEXT.INFO then "[Info]"
  else "[Unknown]"

/-- match arm producing the type tag in vulkan_debug_utils_debug. -/
def message_type_str (message_type : Nat) : String :=
  if message_type = vk.DebugUtilsMessageTypeFlagsEXT.GENERAL then "[General]"
  else if message_type = vk.DebugUtilsMessageTypeFlagsEXT.PERFORMANCE then "[Performance]"
  else if message_type = vk.DebugUtilsMessageTypeFlagsEXT.VALIDATION then "[Validation]"
  else "[Unknown]"

/-- The observable result of the debug callback: what it printed to the
console (if anything) and the vk::Bool32 it returned. -/
structure DebugCallbackResult where
  console_output : Option String
  return_value : Bool
deriving DecidableEq

/-- vulkan_debug_utils_debug of main.rs (lines 40-71): prints only when the
severity equals ERROR, and always returns vk::FALSE. -/
def vulkan_debug_utils_debug (message_severity message_type : Nat)
    (message : String) : DebugCallbackResult :=
  { console_output :=
      if message_severity = vk.DebugUtilsMessageSeverityFlagsEXT.ERROR then
        some ("[Debug]" ++ message_severity_str message_severity
          ++ message_type_str message_type ++ message)
      else none
    return_value := false }

/-- The severity and type masks of get_debug_utils_messenger_create_info of
main.rs (lines 97-111). -/
structure DebugUtilsMessengerCreateInfoEXT where
  message_severity : Nat
  message_type : Nat
deriving DecidableEq

def get_debug_utils_messenger_create_info : DebugUtilsMessengerCreateInfoEXT :=
  { message_severity :=
      Nat.lor
        (Nat.lor vk.DebugUtilsMessageSeverityFlagsEXT.VERBOSE
          vk.DebugUtilsMessageSeverityFlagsEXT.WARNING)
        vk.DebugUtilsMessageSeverityFlagsEXT.ERROR
    message_type :=
      Nat.lor
        (Nat.lor vk.DebugUtilsMessageTypeFlagsEXT.GENERAL
          vk.DebugUtilsMessageTypeFlagsEXT.VALIDATION)
        vk.DebugUtilsMessageTypeFlagsEXT.PERFORMANCE }

/-- find? distributes over append: the first hit of the left list wins. -/
theorem find_eq_of_append {α : Type} (p : α → Bool) (l₁ l₂ : List α) :
    (l₁ ++ l₂).find? p =
      match l₁.find? p with
      | some x => some x
      | none => l₂.find? p := by
  induction l₁ with
  | nil => simp
  | cons a l ih =>
    cases h : p a with
    | true => simp [List.find?_cons, h]
    | false => simp [List.find?_cons, h, ih]

/-- The pick_physic_device loop keeps the last suitable device: it equals the
first suitable device of the reversed list, with the accumulator as
fallback. -/
theorem pick_physic_device_loop_eq (physical_devices : List PhysicalDevice)
    (acc : Option PhysicalDevice) :
    pick_physic_device_loop physical_devices acc =
      match physical_devices.reverse.find? is_device_suitable with
      | some device => some device
      | none => acc := by
  induction physical_devices generalizing acc with
  | nil => simp [pick_physic_device_loop]
  | cons device rest ih =>
    rw [pick_physic_device_loop, ih, List.reverse_cons, find_eq_of_append]
    cases hf : rest.reverse.find? is_device_suitable with
    | some d => simp
    | none =>
      cases h : is_device_suitable device with
      | true => simp [List.find?_cons, h]
      | false => simp [List.find?_cons, h]

/-- Claim C1 (corrected), counterexample to the claim as stated: two suitable
devices where pick_physic_device does not return the first suitable one.
demo_device_a heads the list and is suitable, yet the function returns the
distinct device demo_device_b. -/
theorem pick_physic_device_not_first_suitable :
    pick_physic_device
        [⟨[⟨1, true, true⟩], ["VK_KHR_swapchain"],
          [⟨vk.Format.B8G8R8A8_SRGB, vk.ColorSpaceKHR.SRGB_NONLINEAR⟩],
          [vk.PresentModeKHR.FIFO]⟩,
         ⟨[⟨1, true, true⟩, ⟨1, true, true⟩], ["VK_KHR_swapchain"],
          [⟨vk.Format.B8G8R8A8_SRGB, vk.ColorSpaceKHR.SRGB_NONLINEAR⟩],
          [vk.PresentModeKHR.FIFO]⟩] =
      Except.ok
        ⟨[⟨1, true, true⟩, ⟨1, true, true⟩], ["VK_KHR_swapchain"],
         [⟨vk.Format.B8G8R8A8_SRGB, vk.ColorSpaceKHR.SRGB_NONLINEAR⟩],
         [vk.PresentModeKHR.FIFO]⟩ ∧
    is_device_suitable
        ⟨[⟨1, true, true⟩], ["VK_KHR_swapchain"],
         [⟨vk.Format.B8G8R8A8_SRGB, vk.ColorSpaceKHR.SRGB_NONLINEAR⟩],
         [vk.PresentModeKHR.FIFO]⟩ = true ∧
    (⟨[⟨1, true, true⟩, ⟨1, true, true⟩], ["VK_KHR_swapchain"],
      [⟨vk.Format.B8G8R8A8_SRGB, vk.ColorSpaceKHR.SRGB_NONLINEAR⟩],
      [vk.PresentModeKHR.FIFO]⟩ : PhysicalDevice) ≠
      ⟨[⟨1, true, true⟩], ["VK_KHR_swapchain"],
       [⟨vk.Format.B8G8R8A8_SRGB, vk.ColorSpaceKHR.SRGB_NONLINEAR⟩],
       [vk.PresentModeKHR.FIFO]⟩ := by
  refine ⟨rfl, rfl, by decide⟩

/-- Claim C1 (amended): for every enumerated list of physical devices,
pick_physic_device panics when the list is empty, and otherwise returns the
LAST suitable device in enumeration order (the first suitable device of the
reversed list), panicking when no device is suitable.  Suitability is
is_device_suitable: a complete graphics and present queue-family assignment,
the required extension, and non-empty surface formats and present modes. -/
theorem pick_physic_device_picks_last_suitable
    (physical_devices : List PhysicalDevice) :
    pick_physic_device physical_devices =
      if physical_devices.length = 0 then
        Except.error "Failed to find GPUs with vulkan support."
      else
        match physical_devices.reverse.find? is_device_suitable with
        | some device => Except.ok device
        | none => Except.error "Failed to find a suitable GPU!" := by
  rw [pick_physic_device, pick_physic_device_loop_eq]
  cases hf : physical_devices.reverse.find? is_device_suitable <;> simp [hf]

/-- Claim C2 (corrected), counterexample to the claim as stated: a list whose
only (hence first) enumerated mode is IMMEDIATE and which does not contain
MAILBOX; choose_swap_present_mode returns FIFO, not the first enumerated
option. -/
theorem choose_swap_present_mode_not_first_fallback :
    choose_swap_present_mode [vk.PresentModeKHR.IMMEDIATE] =
      vk.PresentModeKHR.FIFO ∧
    [vk.PresentModeKHR.IMMEDIATE].head? = some vk.PresentModeKHR.IMMEDIATE ∧
    vk.PresentModeKHR.FIFO ≠ vk.PresentModeKHR.IMMEDIATE ∧
    vk.PresentModeKHR.MAILBOX ∉ [vk.PresentModeKHR.IMMEDIATE] := by
  refine ⟨by decide, by decide, by decide, by decide⟩

/-- Claim C2 (amended): choose_swap_present_mode returns MAILBOX whenever it
occurs in the list, and otherwise returns the hardcoded fallback FIFO
(regardless of which mode is enumerated first). -/
theorem choose_swap_present_mode_amended
    (avaliable_present_modes : List vk.PresentModeKHR) :
    (vk.PresentModeKHR.MAILBOX ∈ avaliable_present_modes →
      choose_swap_present_mode avaliable_present_modes =
        vk.PresentModeKHR.MAILBOX) ∧
    (vk.PresentModeKHR.MAILBOX ∉ avaliable_present_modes →
      choose_swap_present_mode avaliable_present_modes =
        vk.PresentModeKHR.FIFO) := by
  induction avaliable_present_modes with
  | nil =>
    exact ⟨fun h => absurd h (List.not_mem_nil _), fun _ => rfl⟩
  | cons m rest ih =>
    constructor
    · intro hm
      rw [choose_swap_present_mode]
      by_cases h : m = vk.PresentModeKHR.MAILBOX
      · simp [h]
      · have hr : vk.PresentModeKHR.MAILBOX ∈ rest := by
          rcases List.mem_cons.mp hm with he | hr
          · exact absurd he.symm h
          · exact hr
        simp [h, ih.1 hr]
    · intro hm
      rw [choose_swap_present_mode]
      have h : ¬m = vk.PresentModeKHR.MAILBOX := by
        intro he
        exact hm (he ▸ List.mem_cons_self m rest)
      have hr : vk.PresentModeKHR.MAILBOX ∉ rest := by
        intro hmem
        exact hm (List.mem_cons_of_mem m hmem)
      simp [h, ih.2 hr]

/-- Witness for the amended claim C2 at concrete inputs: MAILBOX is chosen
when present, FIFO is the fallback otherwise. -/
theorem choose_swap_present_mode_amended_witness :
    choose_swap_present_mode
        [vk.PresentModeKHR.FIFO, vk.PresentModeKHR.MAILBOX] =
      vk.PresentModeKHR.MAILBOX ∧
    choose_swap_present_mode
        [vk.PresentModeKHR.IMMEDIATE, vk.PresentModeKHR.FIFO_RELAXED] =
      vk.PresentModeKHR.FIFO :=
  ⟨(choose_swap_present_mode_amended _).1 (by decide),
   (choose_swap_present_mode_amended _).2 (by decide)⟩

/-- The surface-format search loop is List.find? with the preferred-format
predicate. -/
theorem choose_swap_surface_format_loop_eq (fmts : List vk.SurfaceFormatKHR) :
    choose_swap_surface_format_loop fmts =
      fmts.find? is_preferred_surface_format := by
  induction fmts with
  | nil => rfl
  | cons f rest ih =>
    rw [choose_swap_surface_format_loop]
    cases h : is_preferred_surface_format f with
    | true => simp [List.find?_cons, h]
    | false => simp [List.find?_cons, h, ih]

/-- Claim C7 (confirmed): on every non-empty list of surface formats,
choose_swap_surface_format returns the first format with format
B8G8R8A8_SRGB and color space SRGB_NONLINEAR when one occurs (the List.find?
hit for is_preferred_surface_format), returns the first enumerated format
when none occurs, and always returns some format. -/
theorem choose_swap_surface_format_spec
    (avaliable_formats : List vk.SurfaceFormatKHR)
    (h : avaliable_formats ≠ []) :
    (∀ f, avaliable_formats.find? is_preferred_surface_format = some f →
      choose_swap_surface_format avaliable_formats = some f) ∧
    (avaliable_formats.find? is_preferred_surface_format = none →
      choose_swap_surface_format avaliable_formats =
        avaliable_formats.head?) ∧
    (∃ r, choose_swap_surface_format avaliable_formats = some r) := by
  have hloop := choose_swap_surface_format_loop_eq avaliable_formats
  refine ⟨?_, ?_, ?_⟩
  · intro f hf
    unfold choose_swap_surface_format
    rw [hloop, hf]
  · intro hn
    unfold choose_swap_surface_format
    rw [hloop, hn]
  · cases hf : avaliable_formats.find? is_preferred_surface_format with
    | some f =>
      exact ⟨f, by unfold choose_swap_surface_format; rw [hloop, hf]⟩
    | none =>
      cases avaliable_formats with
      | nil => exact absurd rfl h
      | cons a l =>
        refine ⟨a, ?_⟩
        unfold choose_swap_surface_format
        rw [choose_swap_surface_format_loop_eq, hf]
        rfl

/-- Witness for claim C7 at concrete inputs: the preferred format is chosen
over an earlier non-preferred one. -/
theorem choose_swap_surface_format_spec_witness :
    choose_swap_surface_format
        [⟨vk.Format.B8G8R8A8_UNORM, vk.ColorSpaceKHR.SRGB_NONLINEAR⟩,
         ⟨vk.Format.B8G8R8A8_SRGB, vk.ColorSpaceKHR.SRGB_NONLINEAR⟩] =
      some ⟨vk.Format.B8G8R8A8_SRGB, vk.ColorSpaceKHR.SRGB_NONLINEAR⟩ :=
  (choose_swap_surface_format_spec _ (by decide)).1 _ (by decide)

/-- Permutations of a list of lists flatten to permutations. -/
theorem flatten_perm_of_perm {α : Type} {L1 L2 : List (List α)}
    (h : L1.Perm L2) : L1.flatten.Perm L2.flatten := by
  induction h with
  | nil => exact List.Perm.refl _
  | cons x _ ih =>
    rw [List.flatten_cons, List.flatten_cons]
    exact ih.append_left x
  | swap x y l =>
    rw [List.flatten_cons, List.flatten_cons, List.flatten_cons,
      List.flatten_cons, ← List.append_assoc, ← List.append_assoc]
    exact List.perm_append_comm.append_right _
  | trans _ _ ih1 ih2 => exact ih1.trans ih2

/-- Claim C3 (corrected), counterexample to the claim as stated: already for
a swapchain with one image, App::drop's destruction sequence is not the
exact reverse of App::new's creation sequence, because the two semaphores
are destroyed in their creation order (image-available first). -/
theorem app_drop_not_exact_reverse :
    destruction_order 1 ≠ (creation_order 1).reverse := by decide

/-- Claim C3 (amended): every handle App::new creates and keeps is destroyed
exactly once by App::drop (the destruction sequence is a permutation of the
creation sequence), and the destruction sequence is the exact reverse of the
creation sequence at the granularity of resource groups - the image views,
the framebuffers and the semaphore pair each forming one group - while
inside each group the handles are destroyed in creation order.  So every
handle is still destroyed before the context that owns it (device-owned
handles before the device, the device and surface before the instance). -/
theorem app_drop_grouped_reverse_of_new (n : Nat) :
    creation_order n = (creation_groups n).flatten ∧
    destruction_order n = ((creation_groups n).reverse).flatten ∧
    (destruction_order n).Perm (creation_order n) := by
  have h1 : creation_order n = (creation_groups n).flatten := by
    simp [creation_order, creation_groups, List.flatten_cons, List.flatten_nil]
  have h2 : destruction_order n = ((creation_groups n).reverse).flatten := by
    simp [destruction_order, creation_groups, List.flatten_cons,
      List.flatten_nil]
  refine ⟨h1, h2, ?_⟩
  rw [h1, h2]
  exact flatten_perm_of_perm (List.reverse_perm _)

/-- Claim C4 (confirmed): every fallible operation in the scope of the
specification aborts on failure with a non-empty descriptive message (the
expect / panic string naming the operation), and no call site reacts to a
failure by retrying or recovering. -/
theorem every_fallible_op_aborts_with_message (op : FallibleOp) :
    (∃ msg, on_failure op = FailureBehavior.abortWith msg ∧ 0 < msg.length) ∧
    on_failure op ≠ FailureBehavior.retryOp ∧
    on_failure op ≠ FailureBehavior.recoverOp := by
  cases op <;> exact ⟨⟨_, rfl, by decide⟩, by decide, by decide⟩

/-- Claim C5 (confirmed): one invocation of App::draw_frame, given the
image index the driver returns from acquisition, performs exactly the trace
acquire (signaling the image-available semaphore, no fence), one queue
submission of exactly the command buffer indexed by the acquired image
(waiting on the image-available semaphore, signaling the render-finished
semaphore, no fence), then presentation of the acquired image (waiting on
the render-finished semaphore); the trace contains exactly one submission
and no action uses a fence, so ordering rests only on the two binary
semaphores. -/
theorem draw_frame_spec (command_buffers : List Nat) (image_idx : Nat)
    (hlt : image_idx < command_buffers.length) :
    ∃ trace, draw_frame command_buffers image_idx = Except.ok trace ∧
      trace =
        [GpuAction.acquire_next_image (2 ^ 64 - 1)
           Semaphore.image_avaliable_semaphore none,
         GpuAction.queue_submit
           { wait_semaphores := [Semaphore.image_avaliable_semaphore]
             command_buffers := [command_buffers[image_idx]]
             signal_semaphores := [Semaphore.render_finished_semaphore] } none,
         GpuAction.queue_present
           { wait_semaphores := [Semaphore.render_finished_semaphore]
             swapchain_count := 1
             image_indices := [image_idx] }] ∧
      (trace.filter GpuAction.is_submit).length = 1 ∧
      (∀ a ∈ trace, GpuAction.fence_of a = none) := by
  have e : draw_frame command_buffers image_idx = Except.ok
      [GpuAction.acquire_next_image (2 ^ 64 - 1)
         Semaphore.image_avaliable_semaphore none,
       GpuAction.queue_submit
         { wait_semaphores := [Semaphore.image_avaliable_semaphore]
           command_buffers := [command_buffers[image_idx]]
           signal_semaphores := [Semaphore.render_finished_semaphore] } none,
       GpuAction.queue_present
         { wait_semaphores := [Semaphore.render_finished_semaphore]
           swapchain_count := 1
           image_indices := [image_idx] }] := by
    unfold draw_frame
    rw [dif_pos hlt]
  refine ⟨_, e, rfl, rfl, ?_⟩
  intro a ha
  simp only [List.mem_cons, List.not_mem_nil, or_false] at ha
  rcases ha with h | h | h <;> subst h <;> rfl

/-- Witness for claim C5 at a concrete input: two recorded command buffers,
the driver acquires image 1, so buffer 20 is submitted and image 1 is
presented. -/
theorem draw_frame_spec_witness :
    ∃ trace, draw_frame [10, 20] 1 = Except.ok trace ∧
      trace =
        [GpuAction.acquire_next_image (2 ^ 64 - 1)
           Semaphore.image_avaliable_semaphore none,
         GpuAction.queue_submit
           { wait_semaphores := [Semaphore.image_avaliable_semaphore]
             command_buffers := [[10, 20][1]]
             signal_semaphores := [Semaphore.render_finished_semaphore] } none,
         GpuAction.queue_present
           { wait_semaphores := [Semaphore.render_finished_semaphore]
             swapchain_count := 1
             image_indices := [1] }] ∧
      (trace.filter GpuAction.is_submit).length = 1 ∧
      (∀ a ∈ trace, GpuAction.fence_of a = none) :=
  draw_frame_spec [10, 20] 1 (by decide)

/-- Claim C6 (confirmed): the pipeline's vertex-input state has zero vertex
binding descriptions and zero vertex attribute descriptions, and every
command buffer recorded by create_command_buffers contains exactly one draw
command, the hardcoded cmd_draw of 3 vertices and 1 instance. -/
theorem pipeline_no_vertex_input_single_draw (swapchain_image_count : Nat) :
    vertex_input_ci.vertex_binding_description_count = 0 ∧
    vertex_input_ci.vertex_attribute_description_count = 0 ∧
    ∀ cb ∈ create_command_buffers swapchain_image_count,
      cb.filter Command.is_draw = [Command.cmd_draw 3 1 0 0] := by
  refine ⟨rfl, rfl, ?_⟩
  intro cb hcb
  rw [create_command_buffers] at hcb
  obtain ⟨i, _, rfl⟩ := List.mem_map.mp hcb
  rfl

/-- Witness for claim C6 at a concrete input: the command buffer recorded
for framebuffer 0 contains exactly the one hardcoded draw. -/
theorem pipeline_no_vertex_input_single_draw_witness :
    (record_commands 0).filter Command.is_draw =
      [Command.cmd_draw 3 1 0 0] :=
  (pipeline_no_vertex_input_single_draw 1).2.2 (record_commands 0) (by decide)

/-- Claim C8 (corrected), counterexample to the claim as stated: a keyboard
input event (key A pressed) does not set the control flow to Exit. -/
theorem main_loop_keyboard_not_exit :
    (main_loop_handle_event
        (Event.WindowEvent (WindowEvent.KeyboardInput
          { virtual_keycode := some VirtualKeyCode.A,
            state := ElementState.Pressed }))
        ControlFlow.Poll).control_flow ≠ ControlFlow.Exit := by decide

/-- Claim C8 (amended): every close-requested event sets the control flow to
Exit; a keyboard input event sets it to Exit exactly when it is the Escape
key in the pressed state, and otherwise leaves the control flow unchanged;
no other window event and no non-window event changes the control flow. -/
theorem main_loop_exit_spec (control_flow : ControlFlow) :
    (main_loop_handle_event (Event.WindowEvent WindowEvent.CloseRequested)
        control_flow).control_flow = ControlFlow.Exit ∧
    (∀ input : KeyboardInput,
      (main_loop_handle_event
          (Event.WindowEvent (WindowEvent.KeyboardInput input))
          control_flow).control_flow =
        if input.virtual_keycode = some VirtualKeyCode.Escape ∧
            input.state = ElementState.Pressed
        then ControlFlow.Exit else control_flow) ∧
    (∀ we : WindowEvent, we ≠ WindowEvent.CloseRequested →
      (∀ input, we ≠ WindowEvent.KeyboardInput input) →
      (main_loop_handle_event (Event.WindowEvent we)
          control_flow).control_flow = control_flow) ∧
    (∀ event : Event, (∀ we, event ≠ Event.WindowEvent we) →
      (main_loop_handle_event event control_flow).control_flow =
        control_flow) := by
  refine ⟨rfl, ?_, ?_, ?_⟩
  · intro input
    obtain ⟨kc, st⟩ := input
    cases kc with
    | none => simp [main_loop_handle_event]
    | some k => cases k <;> cases st <;> simp [main_loop_handle_event]
  · intro we h1 h2
    cases we with
    | CloseRequested => exact absurd rfl h1
    | KeyboardInput input => exact absurd rfl (h2 input)
    | Resized => rfl
    | Moved => rfl
  · intro event h
    cases event with
    | WindowEvent we => exact absurd rfl (h we)
    | MainEventsCleared => rfl
    | RedrawRequested id => rfl
    | NewEvents => rfl
    | LoopDestroyed => rfl

/-- Witness for the amended claim C8 at concrete inputs: close-requested
exits, Escape pressed exits, a resize leaves the flow unchanged, and
MainEventsCleared leaves the flow unchanged. -/
theorem main_loop_exit_spec_witness :
    (main_loop_handle_event (Event.WindowEvent WindowEvent.CloseRequested)
        ControlFlow.Poll).control_flow = ControlFlow.Exit ∧
    (main_loop_handle_event
        (Event.WindowEvent (WindowEvent.KeyboardInput
          { virtual_keycode := some VirtualKeyCode.Escape,
            state := ElementState.Pressed }))
        ControlFlow.Poll).control_flow =
      (if (some VirtualKeyCode.Escape : Option VirtualKeyCode) =
            some VirtualKeyCode.Escape ∧
          ElementState.Pressed = ElementState.Pressed
       then ControlFlow.Exit else ControlFlow.Poll) ∧
    (main_loop_handle_event (Event.WindowEvent WindowEvent.Resized)
        ControlFlow.Poll).control_flow = ControlFlow.Poll ∧
    (main_loop_handle_event Event.MainEventsCleared
        ControlFlow.Poll).control_flow = ControlFlow.Poll :=
  ⟨(main_loop_exit_spec ControlFlow.Poll).1,
   (main_loop_exit_spec ControlFlow.Poll).2.1 _,
   (main_loop_exit_spec ControlFlow.Poll).2.2.1 WindowEvent.Resized
     (fun h => WindowEvent.noConfusion h)
     (fun _input h => WindowEvent.noConfusion h),
   (main_loop_exit_spec ControlFlow.Poll).2.2.2 Event.MainEventsCleared
     (fun _we h => Event.noConfusion h)⟩

/-- Claim C9 (confirmed): whenever min_image_count + 1 does not overflow u32,
the image count requested by create_swap_chain equals min_image_count + 1,
except that it equals max_image_count when max_image_count is non-zero and
exceeded; consequently the requested count never exceeds a non-zero
max_image_count. -/
theorem create_swap_chain_image_count_spec
    (min_image_count max_image_count : Nat)
    (h : min_image_count + 1 < 4294967296) :
    create_swap_chain_image_count min_image_count max_image_count =
      (if max_image_count > 0 ∧ min_image_count + 1 > max_image_count
       then max_image_count else min_image_count + 1) ∧
    (0 < max_image_count →
      create_swap_chain_image_count min_image_count max_image_count ≤
        max_image_count) := by
  have hmod : (min_image_count + 1) % 4294967296 = min_image_count + 1 :=
    Nat.mod_eq_of_lt h
  constructor
  · rw [create_swap_chain_image_count]
    simp only [hmod]
  · intro hpos
    rw [create_swap_chain_image_count]
    simp only [hmod]
    split_ifs with hc
    · exact Nat.le_refl _
    · rcases Decidable.not_and_iff_or_not.mp hc with hb | hb
      · exact absurd hpos (by simpa using hb)
      · omega

/-- Witness for claim C9 at a concrete input: min 2, max 3 requests 3 images
and respects the bound. -/
theorem create_swap_chain_image_count_spec_witness :
    create_swap_chain_image_count 2 3 =
      (if 3 > 0 ∧ 2 + 1 > 3 then 3 else 2 + 1) ∧
    create_swap_chain_image_count 2 3 ≤ 3 :=
  ⟨(create_swap_chain_image_count_spec 2 3 (by decide)).1,
   (create_swap_chain_image_count_spec 2 3 (by decide)).2 (by decide)⟩

/-- Claim C10 (confirmed): the debug callback always returns vk::FALSE (so
the triggering call is never aborted) and prints to the console exactly when
the message severity equals ERROR, even though the registered messenger mask
contains the VERBOSE, WARNING and ERROR bits: both the VERBOSE and WARNING
bits are in the registered mask yet produce no output. -/
theorem debug_callback_spec (message_severity message_type : Nat)
    (message : String) :
    (vulkan_debug_utils_debug message_severity message_type
        message).return_value = false ∧
    ((vulkan_debug_utils_debug message_severity message_type
        message).console_output.isSome ↔
      message_severity = vk.DebugUtilsMessageSeverityFlagsEXT.ERROR) ∧
    get_debug_utils_messenger_create_info.message_severity =
      Nat.lor
        (Nat.lor vk.DebugUtilsMessageSeverityFlagsEXT.VERBOSE
          vk.DebugUtilsMessageSeverityFlagsEXT.WARNING)
        vk.DebugUtilsMessageSeverityFlagsEXT.ERROR ∧
    Nat.land vk.DebugUtilsMessageSeverityFlagsEXT.VERBOSE
      get_debug_utils_messenger_create_info.message_severity ≠ 0 ∧
    (vulkan_debug_utils_debug vk.DebugUtilsMessageSeverityFlagsEXT.VERBOSE
        message_type message).console_output = none ∧
    Nat.land vk.DebugUtilsMessageSeverityFlagsEXT.WARNING
      get_debug_utils_messenger_create_info.message_severity ≠ 0 ∧
    (vulkan_debug_utils_debug vk.DebugUtilsMessageSeverityFlagsEXT.WARNING
        message_type message).console_output = none := by
  refine ⟨rfl, ?_, rfl, by decide, ?_, by decide, ?_⟩
  · rw [vulkan_debug_utils_debug]
    by_cases h : message_severity = vk.DebugUtilsMessageSeverityFlagsEXT.ERROR
    · simp [h]
    · simp [h]
  · rw [vulkan_debug_utils_debug]
    simp [vk.DebugUtilsMessageSeverityFlagsEXT.VERBOSE,
      vk.DebugUtilsMessageSeverityFlagsEXT.ERROR]
  · rw [vulkan_debug_utils_debug]
    simp [vk.DebugUtilsMessageSeverityFlagsEXT.WARNING,
      vk.DebugUtilsMessageSeverityFlagsEXT.ERROR]
